import Mathlib

/-!
Shallow embedding of the state-synchronization core of the
homebridge-xiaomi-purifier repository (src/device.ts, src/accessory.ts).

The embedding covers:
* the `PropertyKeys` enum and the fully-defaulted snapshot `DEFAULT_VALUE`
  (src/device.ts),
* `AirPurifierDevice.status`, the chunked batch fetch that reassembles the
  snapshot with lodash `zip` + `Object.fromEntries` (src/device.ts, lines
  102-112),
* `valueUpdater` / `updateState`, the poll-cycle diff-and-dispatch logic
  (src/accessory.ts, lines 87-131),
* the command entry points `setActiveState`, `setRotationSpeedImpl` and the
  lodash-`debounce` wrapper `setRotationSpeed` (src/accessory.ts).

JavaScript values flowing through the snapshot are modelled by the `Value`
type (strings, numbers, booleans, `null`, `undefined`); transport calls are
modelled as functions returning `Except String _`, a rejected promise being
the `Except.error` case.
-/

/-- Enumeration of the device properties, in the declaration order of the
`PropertyKeys` enum in src/device.ts (which is also the insertion order of
the `DEFAULT_VALUE` literal, hence the order of `Object.keys(DEFAULT_VALUE)`). -/
inductive PropertyKeys
  | POWER
  | AIR_QUALITY_INDEX
  | AVERAGE_AIR_QUALITY_INDEX
  | HUMIDITY
  | TEMPERATURE
  | MODE
  | FAVORITE_ROTATION_SPEED_LEVEL
  | FILTER_LIFE_REMAINING
  | FILTER_HOURS_USED
  | USE_TIME
  | MOTOR_SPEED
  | MOTOR_2_SPEED
  | PURIFY_VOLUME
  | LED
  | LED_BRIGHTNESS
  | ILLUMINANCE
  | BUZZER
  | BUZZER_VOLUME
  | CHILD_LOCK
  | FILTER_RFID_PRODUCT_ID
  | FILTER_RFID_TAG_ID
  | SLEEP_LEARNING_MODE
  | SLEEP_MODE
  | SLEEP_TIME
  | SLEEP_LEARNING_MODE_COUNT
  | EXTRA_MODE_SUPPORTED
  | AUTO_DETECT
  | LAST_BUTTON_PRESSED
  deriving DecidableEq, Repr

/-- Wire-protocol string of each enum member (the string literal assigned to
it in src/device.ts). -/
def keyString : PropertyKeys → String
  | .POWER => "power"
  | .AIR_QUALITY_INDEX => "aqi"
  | .AVERAGE_AIR_QUALITY_INDEX => "average_aqi"
  | .HUMIDITY => "humidity"
  | .TEMPERATURE => "temp_dec"
  | .MODE => "mode"
  | .FAVORITE_ROTATION_SPEED_LEVEL => "favorite_level"
  | .FILTER_LIFE_REMAINING => "filter1_life"
  | .FILTER_HOURS_USED => "f1_hour_used"
  | .USE_TIME => "use_time"
  | .MOTOR_SPEED => "motor1_speed"
  | .MOTOR_2_SPEED => "motor2_speed"
  | .PURIFY_VOLUME => "purify_volume"
  | .LED => "led"
  | .LED_BRIGHTNESS => "led_b"
  | .ILLUMINANCE => "bright"
  | .BUZZER => "buzzer"
  | .BUZZER_VOLUME => "volume"
  | .CHILD_LOCK => "child_lock"
  | .FILTER_RFID_PRODUCT_ID => "rfid_product_id"
  | .FILTER_RFID_TAG_ID => "rfid_tag"
  | .SLEEP_LEARNING_MODE => "act_sleep"
  | .SLEEP_MODE => "sleep_mode"
  | .SLEEP_TIME => "sleep_time"
  | .SLEEP_LEARNING_MODE_COUNT => "sleep_data_num"
  | .EXTRA_MODE_SUPPORTED => "app_extra"
  | .AUTO_DETECT => "act_det"
  | .LAST_BUTTON_PRESSED => "button_pressed"

/-- Declaration order of the `PropertyKeys` enum members in src/device.ts. -/
def propertyKeysOrder : List PropertyKeys :=
  [.POWER, .AIR_QUALITY_INDEX, .AVERAGE_AIR_QUALITY_INDEX, .HUMIDITY,
   .TEMPERATURE, .MODE, .FAVORITE_ROTATION_SPEED_LEVEL, .FILTER_LIFE_REMAINING,
   .FILTER_HOURS_USED, .USE_TIME, .MOTOR_SPEED, .MOTOR_2_SPEED, .PURIFY_VOLUME,
   .LED, .LED_BRIGHTNESS, .ILLUMINANCE, .BUZZER, .BUZZER_VOLUME, .CHILD_LOCK,
   .FILTER_RFID_PRODUCT_ID, .FILTER_RFID_TAG_ID, .SLEEP_LEARNING_MODE,
   .SLEEP_MODE, .SLEEP_TIME, .SLEEP_LEARNING_MODE_COUNT, .EXTRA_MODE_SUPPORTED,
   .AUTO_DETECT, .LAST_BUTTON_PRESSED]

/-- JavaScript values carried by snapshot entries and transport responses:
strings, numbers (device properties are integers), booleans, `null` and
`undefined`.  Strict equality `!==` on these primitives is structural
equality, modelled by decidable equality on this type. -/
inductive Value
  | str (s : String)
  | num (n : Int)
  | boolean (b : Bool)
  | null
  | undefined
  deriving DecidableEq, Repr

/-- Snapshot type: a total mapping from every declared property key to a
value (the `AirPurifierStatus` object shape of src/device.ts). -/
abbrev Snapshot := PropertyKeys → Value

/-- Fully-defaulted snapshot, transcribing the `DEFAULT_VALUE` literal of
src/device.ts. -/
def DEFAULT_VALUE : Snapshot
  | .POWER => .str "off"
  | .AIR_QUALITY_INDEX => .num 0
  | .AVERAGE_AIR_QUALITY_INDEX => .num 0
  | .HUMIDITY => .num 0
  | .TEMPERATURE => .num 0
  | .MODE => .str "auto"
  | .FAVORITE_ROTATION_SPEED_LEVEL => .num 0
  | .FILTER_LIFE_REMAINING => .num 0
  | .FILTER_HOURS_USED => .num 0
  | .USE_TIME => .num 0
  | .MOTOR_SPEED => .num 0
  | .MOTOR_2_SPEED => .num 0
  | .PURIFY_VOLUME => .num 0
  | .LED => .str "off"
  | .LED_BRIGHTNESS => .null
  | .ILLUMINANCE => .num 0
  | .BUZZER => .str "off"
  | .BUZZER_VOLUME => .null
  | .CHILD_LOCK => .str "off"
  | .FILTER_RFID_PRODUCT_ID => .str "0:0:0:0"
  | .FILTER_RFID_TAG_ID => .str "00:00:00:00:00:00:0"
  | .SLEEP_LEARNING_MODE => .str "close"
  | .SLEEP_MODE => .str "poweroff"
  | .SLEEP_TIME => .num 0
  | .SLEEP_LEARNING_MODE_COUNT => .num 0
  | .EXTRA_MODE_SUPPORTED => .num 0
  | .AUTO_DETECT => .null
  | .LAST_BUTTON_PRESSED => .null

/-- The local variable `propertyKeys = Object.keys(DEFAULT_VALUE)` of
`AirPurifierDevice.status` in src/device.ts: the wire names of all declared
keys, in declaration order. -/
def propertyKeys : List String := propertyKeysOrder.map keyString

/-- Model of lodash `zip(keys, values)` followed pairwise by
`Object.fromEntries`: entries are paired positionally; when `values` is
shorter than `keys`, the missing positions are padded with `undefined`
(lodash `zip` yields `undefined` there); when `values` is longer, the extra
pairs have an `undefined` key, which `Object.fromEntries` coerces to the
string key and the excess value. -/
def lzip : List String → List Value → List (String × Value)
  | [], vs => vs.map fun v => ("undefined", v)
  | k :: ks, [] => (k, Value.undefined) :: lzip ks []
  | k :: ks, v :: vs => (k, v) :: lzip ks vs

/-- Model of `AirPurifierDevice.status` (src/device.ts, lines 102-112).  The
transport is abstracted as `send`, mapping the key chunk of a `get_prop`
call to either the response value list (`result`) or a rejection.  The first
component records the key lists of the batch calls actually issued, in
order; the second is the returned snapshot entry list (the argument of
`Object.fromEntries`) or the propagated rejection.  The code slices the key
list at 15 (`slice(0, 15)` / `slice(15)`), awaits the first call before
issuing the second, and performs no length validation on the responses. -/
def AirPurifierDevice.status (send : List String → Except String (List Value)) :
    List (List String) × Except String (List (String × Value)) :=
  let chunk1 := propertyKeys.take 15
  let chunk2 := propertyKeys.drop 15
  match send chunk1 with
  | .error e => ([chunk1], .error e)
  | .ok r1 =>
    match send chunk2 with
    | .error e => ([chunk1, chunk2], .error e)
    | .ok r2 => ([chunk1, chunk2], .ok (lzip chunk1 r1 ++ lzip chunk2 r2))

/-- Identifiers of the update actions (the updater methods of `MiAirPurifier`
in src/accessory.ts) that `valueUpdater` can dispatch, plus the two updaters
that exist in the class but are never dispatched by the poll cycle. -/
inductive UpdateAction
  | updateActiveState
  | updateCurrentAirPurifierState
  | updateTargetAirPurifierState
  | updateRotationSpeed
  | updateLockPhysicalControls
  | updateFilterState
  | updateFilterChangeState
  | updateAirQuality
  | updatePM25
  | updateTemperature
  | updateHumidity
  | updateIlluminance
  | updateLED
  | updateBuzzer
  deriving DecidableEq, Repr

/-- Transcription of `MiAirPurifier.valueUpdater` (src/accessory.ts, lines
87-113): the ordered list of update actions a changed key triggers.  Note
that `FILTER_LIFE_REMAINING` lists `updateFilterState` twice, and that
`LED` and `BUZZER` both map to `updateLockPhysicalControls`, exactly as in
the source. -/
def valueUpdater : PropertyKeys → List UpdateAction
  | .POWER => [.updateActiveState, .updateCurrentAirPurifierState]
  | .MODE => [.updateTargetAirPurifierState, .updateRotationSpeed]
  | .CHILD_LOCK => [.updateLockPhysicalControls]
  | .MOTOR_SPEED => [.updateRotationSpeed]
  | .FILTER_LIFE_REMAINING => [.updateFilterState, .updateFilterState]
  | .AIR_QUALITY_INDEX => [.updateAirQuality, .updatePM25]
  | .TEMPERATURE => [.updateTemperature]
  | .HUMIDITY => [.updateHumidity]
  | .LED => [.updateLockPhysicalControls]
  | .BUZZER => [.updateLockPhysicalControls]
  | .ILLUMINANCE => [.updateIlluminance]
  | _ => []

/-- The `itemsNeedUpdate` list computed by `MiAirPurifier.updateState`
(src/accessory.ts, lines 117-128) for previous snapshot `st` and freshly
fetched snapshot `newState`: a `reduce` over `Object.entries(newState)` (the
declared keys in declaration order) that, for each key whose value differs
from the stored one under strict inequality `!==`, PREPENDS that key's
updaters to the accumulator (`[...currentUpdaters, ...updaters]`).  The
resulting list is then invoked front to back by `forEach`. -/
def updateStateActions (st newState : Snapshot) : List UpdateAction :=
  propertyKeysOrder.foldl
    (fun updaters k =>
      (if st k ≠ newState k then valueUpdater k else []) ++ updaters) []

/-- Conversion of the entry list produced by `AirPurifierDevice.status` back
into a total snapshot (the effect of `Object.fromEntries` followed by keyed
property reads): each declared key reads the first entry carrying its wire
name, or `undefined` when absent. -/
def toSnapshot (entries : List (String × Value)) : Snapshot :=
  fun k => (entries.lookup (keyString k)).getD Value.undefined

/-- One timer tick of the poll loop: `updateState` (src/accessory.ts, lines
115-131) as observed from outside.  Input: the transport `send` and the
stored snapshot `this.status`; output: the stored snapshot after the tick
and the list of update actions invoked during the tick.  When
`this.device.status()` rejects, the `await` rethrows, so the assignment
`this.status = newState` and the `forEach` dispatch never execute: the
stored snapshot is unchanged and nothing is dispatched. -/
def updateState (send : List String → Except String (List Value))
    (st : Snapshot) : Snapshot × List UpdateAction :=
  match (AirPurifierDevice.status send).2 with
  | .error _ => (st, [])
  | .ok entries =>
    let newState := toSnapshot entries
    (newState, updateStateActions st newState)

/-- Firing semantics of a lodash `debounce(f, W)` wrapper (trailing edge,
the default configuration) over a finite burst of calls given as
`(time, args)` pairs with strictly increasing times: the wrapped function
is invoked with the arguments of call `i` exactly when no further call
arrives within `W` after call `i` (lodash fires once `W` has elapsed since
the most recent call), and always with the arguments of the final call.
Returns the list of argument values the wrapped function is invoked with,
in firing order. -/
def debounceFires {α : Type} (W : Nat) : List (Nat × α) → List α
  | [] => []
  | [(_, v)] => [v]
  | (t1, v1) :: (t2, v2) :: rest =>
      (if W ≤ t2 - t1 then [v1] else []) ++ debounceFires W ((t2, v2) :: rest)

/-- A call to the debounced rotation-speed setter: the identity of the
calling request (standing for its completion callback) together with the
requested speed value. -/
structure SpeedRequest where
  caller : Nat
  speed : ℚ
  deriving DecidableEq, Repr

/-- The debounced `setRotationSpeed = debounce(this.setRotationSpeedImpl,
100)` of src/accessory.ts (line 241), viewed through its firing semantics:
given the burst of incoming calls, returns which requests
`setRotationSpeedImpl` is actually invoked with. -/
def setRotationSpeed (calls : List (Nat × SpeedRequest)) : List SpeedRequest :=
  debounceFires 100 calls

/-- Wire commands the accessory can send through the device methods of
src/device.ts (method name with its parameter). -/
inductive Command
  | set_power (v : String)
  | set_mode (v : String)
  | set_child_lock (v : String)
  | set_level_favorite (level : ℤ)
  | set_led (v : String)
  | set_buzzer (v : String)
  deriving DecidableEq, Repr

/-- Outcome behaviour of the transport for each command the modelled entry
points can send: `Except.ok` models a fulfilled `simpleSend` promise,
`Except.error` a rejection. -/
structure Transport where
  setPower : String → Except String Unit
  setMode : String → Except String Unit
  setFavoriteSpeedLevel : ℤ → Except String Unit

/-- The favorite-level computation `Math.ceil(speed / 6.25)` of
`setRotationSpeedImpl` (src/accessory.ts, line 232), on exact rationals. -/
def ceilLevel (speed : ℚ) : ℤ := ⌈speed / (625 / 100 : ℚ)⌉

/-- Transcription of `MiAirPurifier.setRotationSpeedImpl` (src/accessory.ts,
lines 220-239).  Reads the stored snapshot `st`; when the stored mode is not
the string `favorite`, first sends `set_mode favorite` (and, in the source,
waits 300 ms); a rejection of any awaited call is caught by the surrounding
`try`/`catch`, which invokes the completion callback with the error and
stops.  Returns the list of commands handed to the transport, in order, and
the value passed to the completion callback (`none` for `callback(null)`,
`some e` for `callback(err)`). -/
def setRotationSpeedImpl (tr : Transport) (st : Snapshot) (speed : ℚ) :
    List Command × Option String :=
  let level := ceilLevel speed
  if st PropertyKeys.MODE ≠ Value.str "favorite" then
    match tr.setMode "favorite" with
    | .error e => ([.set_mode "favorite"], some e)
    | .ok _ =>
      match tr.setFavoriteSpeedLevel level with
      | .error e => ([.set_mode "favorite", .set_level_favorite level], some e)
      | .ok _ => ([.set_mode "favorite", .set_level_favorite level], none)
  else
    match tr.setFavoriteSpeedLevel level with
    | .error e => ([.set_level_favorite level], some e)
    | .ok _ => ([.set_level_favorite level], none)

/-- The HomeKit constant `Characteristic.Active.ACTIVE`. -/
def Active_ACTIVE : ℤ := 1

/-- Transcription of `MiAirPurifier.setActiveState` (src/accessory.ts, lines
141-155).  The requested characteristic value is mapped to the string
`on`/`off`; when it already equals the stored `POWER` value the function
returns `callback()` at once (a success completion) without any transport
call; otherwise `set_power` is sent and the callback receives `null` or the
rejection.  Returns the commands sent and the callback argument (`none` for
success). -/
def setActiveState (tr : Transport) (st : Snapshot) (state : ℤ) :
    List Command × Option String :=
  let targetState := if state = Active_ACTIVE then "on" else "off"
  if Value.str targetState = st PropertyKeys.POWER then ([], none)
  else
    match tr.setPower targetState with
    | .error e => ([.set_power targetState], some e)
    | .ok _ => ([.set_power targetState], none)

/-! Concrete fixtures used by witnesses and counterexamples. -/

/-- Snapshot differing from the defaults only at `FILTER_LIFE_REMAINING`. -/
def snapFilterChanged : Snapshot :=
  fun k => if k = PropertyKeys.FILTER_LIFE_REMAINING then Value.num 50 else DEFAULT_VALUE k

/-- Snapshot differing from the defaults exactly at `POWER` (now on) and
`MODE` (now favorite). -/
def snapPowerMode : Snapshot := fun k =>
  match k with
  | PropertyKeys.POWER => Value.str "on"
  | PropertyKeys.MODE => Value.str "favorite"
  | k => DEFAULT_VALUE k

/-- Snapshot differing from the defaults only at `MODE` (favorite). -/
def snapFavorite : Snapshot :=
  fun k => if k = PropertyKeys.MODE then Value.str "favorite" else DEFAULT_VALUE k

/-- Transport on which every command succeeds. -/
def trOK : Transport :=
  { setPower := fun _ => .ok ()
    setMode := fun _ => .ok ()
    setFavoriteSpeedLevel := fun _ => .ok () }

/-- Transport on which the mode-switch command is rejected. -/
def trModeFail : Transport :=
  { setPower := fun _ => .ok ()
    setMode := fun _ => .error "offline"
    setFavoriteSpeedLevel := fun _ => .ok () }

/-- Batch-read oracle on which every call is rejected. -/
def failSend : List String → Except String (List Value) := fun _ => .error "timeout"

/-- Well-formed response for the first chunk: 15 values. -/
def demoR1 : List Value := List.replicate 15 (Value.num 1)

/-- Well-formed response for the second chunk: 13 values. -/
def demoR2 : List Value := List.replicate 13 (Value.num 2)

/-- Batch-read oracle returning a well-formed response for both chunks. -/
def demoSend (ks : List String) : Except String (List Value) :=
  if ks.length = 15 then .ok demoR1 else .ok demoR2

/-- Malformed response for the first chunk: only 14 values for 15 keys. -/
def shortR1 : List Value := List.replicate 14 (Value.num 1)

/-- Response for the second chunk: 13 values. -/
def shortR2 : List Value := List.replicate 13 (Value.num 2)

/-- Batch-read oracle whose first-chunk response is one value short. -/
def shortSend (ks : List String) : Except String (List Value) :=
  if ks.length = 15 then .ok shortR1 else .ok shortR2

/-- Entry list `AirPurifierDevice.status` reassembles from the short
response: the fifteenth key of the first chunk is paired with `undefined`. -/
def shortEntries : List (String × Value) :=
  lzip (propertyKeys.take 15) shortR1 ++ lzip (propertyKeys.drop 15) shortR2

/-! Helper lemmas about the dispatch fold and the zip reassembly. -/

/-- The `reduce` of `updateState` over any key list, with any accumulator:
prepending each changed key's updaters yields the concatenation of the
updater lists of the changed keys in reverse traversal order, in front of
the initial accumulator. -/
theorem updateState_foldl_eq (st newState : Snapshot) (l : List PropertyKeys)
    (acc : List UpdateAction) :
    l.foldl (fun updaters k =>
        (if st k ≠ newState k then valueUpdater k else []) ++ updaters) acc =
      ((l.filter fun k => decide (st k ≠ newState k)).reverse).flatMap valueUpdater
        ++ acc := by
  induction l generalizing acc with
  | nil => simp
  | cons x xs ih =>
      by_cases h : st x ≠ newState x
      · rw [List.foldl_cons, ih, if_pos h,
          List.filter_cons_of_pos (by simpa using h),
          List.reverse_cons, List.flatMap_append]
        simp [List.append_assoc]
      · rw [List.foldl_cons, ih, if_neg h,
          List.filter_cons_of_neg (by simpa using h)]
        simp

/-- Characterization of the dispatch list of a poll cycle: the updater lists
of the changed keys, concatenated in reverse declaration order. -/
theorem updateStateActions_eq (st newState : Snapshot) :
    updateStateActions st newState =
      ((propertyKeysOrder.filter fun k => decide (st k ≠ newState k)).reverse).flatMap
        valueUpdater := by
  unfold updateStateActions
  rw [updateState_foldl_eq, List.append_nil]

/-- Occurrence count of an element in a `flatMap`. -/
theorem count_flatMap {α β : Type} [DecidableEq β] (f : α → List β) (l : List α)
    (b : β) :
    ((l.flatMap f).count b) = (l.map fun x => (f x).count b).sum := by
  induction l with
  | nil => rfl
  | cons x xs ih =>
      rw [List.flatMap_cons, List.count_append, List.map_cons, List.sum_cons, ih]

/-- When the response length matches the key count, the lodash-zip model is
the ordinary positional zip. -/
theorem lzip_eq_zip (ks : List String) (vs : List Value)
    (h : ks.length = vs.length) : lzip ks vs = ks.zip vs := by
  induction ks generalizing vs with
  | nil =>
      cases vs with
      | nil => rfl
      | cons v vs => simp at h
  | cons k ks ih =>
      cases vs with
      | nil => simp at h
      | cons v vs =>
          simp only [lzip, List.zip_cons_cons]
          rw [ih vs (by simpa using h)]

/-! Claim theorems. -/

/-- C1 counterexample.  The claim states the dispatched action list of a
poll cycle contains each action at most once.  Concretely: previous snapshot
`DEFAULT_VALUE`, fetched snapshot `snapFilterChanged`; exactly one key
(`FILTER_LIFE_REMAINING`) changed, yet the dispatched list is
`[updateFilterState, updateFilterState]` — the same action twice — because
that key's `valueUpdater` entry lists the action twice and `updateState`
performs no deduplication. -/
theorem C1_dedup_counterexample :
    (propertyKeysOrder.filter
        fun k => decide (DEFAULT_VALUE k ≠ snapFilterChanged k)) =
      [PropertyKeys.FILTER_LIFE_REMAINING] ∧
    updateStateActions DEFAULT_VALUE snapFilterChanged =
      [UpdateAction.updateFilterState, UpdateAction.updateFilterState] ∧
    ¬ (updateStateActions DEFAULT_VALUE snapFilterChanged).Nodup := by
  decide

/-- C1, amended.  The dispatched action list of a poll cycle is NOT
deduplicated: each action occurs exactly as many times as its total number
of listings across the changed keys (so an action listed twice in one key's
entry, or triggered by several changed keys, is dispatched that many
times). -/
theorem C1_dispatch_counts_no_dedup (st newState : Snapshot) (a : UpdateAction) :
    (updateStateActions st newState).count a =
      ((propertyKeysOrder.filter fun k => decide (st k ≠ newState k)).map
        fun k => (valueUpdater k).count a).sum := by
  rw [updateStateActions_eq, count_flatMap, List.map_reverse, List.sum_reverse]

/-- C2 counterexample.  The claim states the full key list has 27 keys and
the second chunk covers positions [15,27).  In the source, the key list
(`Object.keys(DEFAULT_VALUE)`) has 28 keys, and the second chunk
(`slice(15)`) has 13 keys, covering [15,28). -/
theorem C2_key_count_counterexample :
    propertyKeys.length = 28 ∧ ¬ propertyKeys.length = 27 ∧
    (propertyKeys.drop 15).length = 13 := by
  decide

/-- C2, amended (27 keys corrected to 28; the second chunk is [15,28)).
Whenever both batch responses fulfil with value lists matching their
chunk's key count, the fetch issues exactly the two batch calls
`keys[0:15]` and `keys[15:28]`, in that order, and reassembles the snapshot
as the positional zip of each chunk with its response, preserving the
original key order. -/
theorem C2_fetch_chunk_reassembly (send : List String → Except String (List Value))
    (r1 r2 : List Value)
    (h1 : send (propertyKeys.take 15) = .ok r1)
    (h2 : send (propertyKeys.drop 15) = .ok r2)
    (hl1 : r1.length = 15) (hl2 : r2.length = 13) :
    (AirPurifierDevice.status send).1 = [propertyKeys.take 15, propertyKeys.drop 15] ∧
    (AirPurifierDevice.status send).1.length = 2 ∧
    (AirPurifierDevice.status send).2 =
      .ok ((propertyKeys.take 15).zip r1 ++ (propertyKeys.drop 15).zip r2) ∧
    (((propertyKeys.take 15).zip r1 ++ (propertyKeys.drop 15).zip r2).map
        Prod.fst) = propertyKeys := by
  have e1 : (propertyKeys.take 15).length = 15 := by decide
  have e2 : (propertyKeys.drop 15).length = 13 := by decide
  simp only [AirPurifierDevice.status]
  rw [h1, h2]
  refine ⟨rfl, rfl, ?_, ?_⟩
  · show Except.ok (lzip (propertyKeys.take 15) r1 ++ lzip (propertyKeys.drop 15) r2) =
      Except.ok ((propertyKeys.take 15).zip r1 ++ (propertyKeys.drop 15).zip r2)
    rw [lzip_eq_zip _ _ (by rw [e1, hl1]), lzip_eq_zip _ _ (by rw [e2, hl2])]
  · rw [List.map_append,
      List.map_fst_zip _ _ (by rw [e1, hl1]),
      List.map_fst_zip _ _ (by rw [e2, hl2]),
      List.take_append_drop]

/-- C2 witness: the amended fetch-reassembly theorem applied to the concrete
well-formed oracle `demoSend`. -/
theorem C2_fetch_chunk_reassembly_witness :
    (AirPurifierDevice.status demoSend).1 =
      [propertyKeys.take 15, propertyKeys.drop 15] ∧
    (AirPurifierDevice.status demoSend).1.length = 2 ∧
    (AirPurifierDevice.status demoSend).2 =
      .ok ((propertyKeys.take 15).zip demoR1 ++ (propertyKeys.drop 15).zip demoR2) ∧
    (((propertyKeys.take 15).zip demoR1 ++ (propertyKeys.drop 15).zip demoR2).map
        Prod.fst) = propertyKeys :=
  C2_fetch_chunk_reassembly demoSend demoR1 demoR2 rfl rfl rfl rfl

/-- C3 counterexample.  The claim states a chunk response whose length
differs from the chunk's key count makes the fetch fail with no snapshot.
Concretely, `shortSend` answers the 15-key first chunk with only 14 values,
yet `AirPurifierDevice.status` succeeds, returning an entry list in which
the fifteenth key `led_b` is paired with `undefined`: a partially-populated
snapshot is produced. -/
theorem C3_short_response_counterexample :
    shortR1.length = 14 ∧ (propertyKeys.take 15).length = 15 ∧
    (AirPurifierDevice.status shortSend).2 = .ok shortEntries ∧
    ("led_b", Value.undefined) ∈ shortEntries := by
  refine ⟨rfl, rfl, rfl, by decide⟩

/-- C3, amended.  The fetch performs no length validation at all: whenever
both chunk calls fulfil, a snapshot entry list is produced regardless of the
response lengths, with missing positions padded by `undefined` (lodash
`zip`); the fetch fails only when a chunk's transport call itself rejects. -/
theorem C3_no_length_validation :
    (∀ (send : List String → Except String (List Value)) (r1 r2 : List Value),
      send (propertyKeys.take 15) = .ok r1 →
      send (propertyKeys.drop 15) = .ok r2 →
      (AirPurifierDevice.status send).2 =
        .ok (lzip (propertyKeys.take 15) r1 ++ lzip (propertyKeys.drop 15) r2)) ∧
    (∀ (send : List String → Except String (List Value)) (e : String),
      send (propertyKeys.take 15) = .error e →
      (AirPurifierDevice.status send).2 = .error e) ∧
    (∀ (send : List String → Except String (List Value)) (r1 : List Value)
        (e : String),
      send (propertyKeys.take 15) = .ok r1 →
      send (propertyKeys.drop 15) = .error e →
      (AirPurifierDevice.status send).2 = .error e) := by
  refine ⟨fun send r1 r2 h1 h2 => ?_, fun send e h1 => ?_,
    fun send r1 e h1 h2 => ?_⟩ <;>
    simp only [AirPurifierDevice.status]
  · rw [h1, h2]
  · rw [h1]
  · rw [h1, h2]

/-- C3 witness: the no-length-validation theorem applied to the concrete
short-response oracle `shortSend` (14 values for 15 keys). -/
theorem C3_no_length_validation_witness :
    (AirPurifierDevice.status shortSend).2 =
      .ok (lzip (propertyKeys.take 15) shortR1 ++ lzip (propertyKeys.drop 15) shortR2) :=
  C3_no_length_validation.1 shortSend shortR1 shortR2 rfl rfl

/-- C4 (confirmed).  When the fetch rejects, the poll cycle leaves the
stored snapshot exactly as it was and dispatches no update action: the
`await` in `updateState` rethrows before `this.status` is assigned and
before the `forEach` dispatch runs. -/
theorem C4_failed_fetch_no_update (send : List String → Except String (List Value))
    (st : Snapshot) (e : String)
    (h : (AirPurifierDevice.status send).2 = .error e) :
    updateState send st = (st, []) := by
  unfold updateState
  rw [h]

/-- C4 witness: the failed-fetch theorem applied to the always-rejecting
oracle `failSend` starting from the default snapshot. -/
theorem C4_failed_fetch_no_update_witness :
    updateState failSend DEFAULT_VALUE = (DEFAULT_VALUE, []) :=
  C4_failed_fetch_no_update failSend DEFAULT_VALUE "timeout" rfl

/-- C5 counterexample.  The claim states actions are dispatched in the
PropertyKey declaration order of the changed keys.  Concretely: `POWER` is
declared before `MODE`, both change between `DEFAULT_VALUE` and
`snapPowerMode`, `updateActiveState` is triggered by `POWER` and
`updateTargetAirPurifierState` only by `MODE`; yet the dispatched list runs
the `MODE` actions first, because `updateState` prepends each key's
updaters (`[...currentUpdaters, ...updaters]`). -/
theorem C5_order_counterexample :
    propertyKeysOrder.indexOf PropertyKeys.POWER <
      propertyKeysOrder.indexOf PropertyKeys.MODE ∧
    DEFAULT_VALUE PropertyKeys.POWER ≠ snapPowerMode PropertyKeys.POWER ∧
    DEFAULT_VALUE PropertyKeys.MODE ≠ snapPowerMode PropertyKeys.MODE ∧
    UpdateAction.updateActiveState ∈ valueUpdater PropertyKeys.POWER ∧
    UpdateAction.updateTargetAirPurifierState ∈ valueUpdater PropertyKeys.MODE ∧
    UpdateAction.updateTargetAirPurifierState ∉ valueUpdater PropertyKeys.POWER ∧
    updateStateActions DEFAULT_VALUE snapPowerMode =
      [UpdateAction.updateTargetAirPurifierState, UpdateAction.updateRotationSpeed,
       UpdateAction.updateActiveState, UpdateAction.updateCurrentAirPurifierState] ∧
    (updateStateActions DEFAULT_VALUE snapPowerMode).indexOf
        UpdateAction.updateTargetAirPurifierState <
      (updateStateActions DEFAULT_VALUE snapPowerMode).indexOf
        UpdateAction.updateActiveState := by
  decide

/-- C5, amended.  The update actions of a poll cycle are dispatched in
REVERSE PropertyKey declaration order of the changed keys: the dispatched
list is the concatenation of the changed keys' updater lists with the keys
taken in reverse declaration order (each key's own actions keeping their
listed order, without deduplication). -/
theorem C5_dispatch_reverse_declaration_order (st newState : Snapshot) :
    updateStateActions st newState =
      ((propertyKeysOrder.filter fun k => decide (st k ≠ newState k)).reverse).flatMap
        valueUpdater :=
  updateStateActions_eq st newState

/-- C6 (confirmed).  Three values submitted to the debounced rotation-speed
setter within a span shorter than the 100 ms quiet window result in exactly
one invocation of `setRotationSpeedImpl`, carrying the third request (its
value and its completion callback); the first two requests are superseded
and never receive a completion signal, since their arguments are simply
replaced before the trailing-edge timer fires. -/
theorem C6_debounce_last_value_wins (t1 t2 t3 : Nat) (r1 r2 r3 : SpeedRequest)
    (h12 : t1 < t2) (h23 : t2 < t3) (hspan : t3 - t1 < 100) :
    setRotationSpeed [(t1, r1), (t2, r2), (t3, r3)] = [r3] := by
  have hA : ¬ (100 ≤ t2 - t1) := by omega
  have hB : ¬ (100 ≤ t3 - t2) := by omega
  simp only [setRotationSpeed, debounceFires, if_neg hA, if_neg hB,
    List.nil_append]

/-- C6 witness: the burst 30, 60, 90 at times 0, 1, 2 fires exactly once,
with the third request. -/
theorem C6_debounce_last_value_wins_witness :
    setRotationSpeed [(0, ⟨1, 30⟩), (1, ⟨2, 60⟩), (2, ⟨3, 90⟩)] = [⟨3, 90⟩] :=
  C6_debounce_last_value_wins 0 1 2 ⟨1, 30⟩ ⟨2, 60⟩ ⟨3, 90⟩
    (by decide) (by decide) (by decide)

/-- C7 (confirmed).  When the stored mode is already `favorite`, the gated
speed command issues only `set_level_favorite` — never a `set_mode`
command. -/
theorem C7_favorite_mode_no_mode_switch (tr : Transport) (st : Snapshot)
    (speed : ℚ) (h : st PropertyKeys.MODE = Value.str "favorite") :
    (setRotationSpeedImpl tr st speed).1 =
      [Command.set_level_favorite (ceilLevel speed)] ∧
    ∀ m, Command.set_mode m ∉ (setRotationSpeedImpl tr st speed).1 := by
  have hne : ¬ (st PropertyKeys.MODE ≠ Value.str "favorite") := fun hn => hn h
  simp only [setRotationSpeedImpl, if_neg hne]
  cases htr : tr.setFavoriteSpeedLevel (ceilLevel speed) <;> simp

/-- C7 witness: with the stored mode `favorite` (snapshot `snapFavorite`)
and an all-success transport, a speed-50 request issues only the favorite
level command. -/
theorem C7_favorite_mode_no_mode_switch_witness :
    (setRotationSpeedImpl trOK snapFavorite 50).1 =
      [Command.set_level_favorite (ceilLevel 50)] :=
  (C7_favorite_mode_no_mode_switch trOK snapFavorite 50 rfl).1

/-- C8 (confirmed).  When the mode-switch step of the gated speed command is
rejected, the sequence aborts: the commands sent are exactly the mode
switch, the mode switch's own error is reported through the completion
callback, and no `set_level_favorite` command is ever issued. -/
theorem C8_mode_switch_failure_aborts (tr : Transport) (st : Snapshot)
    (speed : ℚ) (e : String)
    (hm : st PropertyKeys.MODE ≠ Value.str "favorite")
    (he : tr.setMode "favorite" = .error e) :
    setRotationSpeedImpl tr st speed = ([Command.set_mode "favorite"], some e) ∧
    ∀ l, Command.set_level_favorite l ∉ (setRotationSpeedImpl tr st speed).1 := by
  simp only [setRotationSpeedImpl, if_pos hm, he]
  simp

/-- C8 witness: with the default snapshot (mode `auto`) and a transport
whose mode switch is rejected with `offline`, the speed command sends only
`set_mode favorite` and reports `offline`. -/
theorem C8_mode_switch_failure_aborts_witness :
    setRotationSpeedImpl trModeFail DEFAULT_VALUE 50 =
      ([Command.set_mode "favorite"], some "offline") :=
  (C8_mode_switch_failure_aborts trModeFail DEFAULT_VALUE 50 "offline"
    (by decide) rfl).1

/-- C9 (confirmed).  When the requested power state maps to the same
`on`/`off` string as the stored `POWER` value, the power entry point
completes successfully at once (`callback()`) and sends no command to the
transport. -/
theorem C9_power_noop_success (tr : Transport) (st : Snapshot) (state : ℤ)
    (h : st PropertyKeys.POWER =
      Value.str (if state = Active_ACTIVE then "on" else "off")) :
    setActiveState tr st state = ([], none) := by
  simp only [setActiveState, if_pos h.symm]

/-- C9 witness: requesting INACTIVE (0) while the stored power is `off`
sends nothing and completes successfully. -/
theorem C9_power_noop_success_witness :
    setActiveState trOK DEFAULT_VALUE 0 = ([], none) :=
  C9_power_noop_success trOK DEFAULT_VALUE 0 (by decide)

/-- C10 (confirmed).  A change of the `LED` key or of the `BUZZER` key
dispatches exactly the child-lock action `updateLockPhysicalControls`
(that is each key's entire `valueUpdater` entry), and the LED-facet and
buzzer-facet updaters `updateLED` / `updateBuzzer` are never dispatched by
any poll cycle. -/
theorem C10_led_buzzer_dispatch_lock :
    valueUpdater PropertyKeys.LED = [UpdateAction.updateLockPhysicalControls] ∧
    valueUpdater PropertyKeys.BUZZER = [UpdateAction.updateLockPhysicalControls] ∧
    ∀ st newState : Snapshot,
      UpdateAction.updateLED ∉ updateStateActions st newState ∧
      UpdateAction.updateBuzzer ∉ updateStateActions st newState := by
  refine ⟨rfl, rfl, fun st newState => ⟨?_, ?_⟩⟩ <;>
  · intro hmem
    rw [updateStateActions_eq, List.mem_flatMap] at hmem
    obtain ⟨k, _, hk⟩ := hmem
    cases k <;> revert hk <;> decide
